import Mathlib

/-!
Shallow embedding of the Book Catalog Service (two variants).

Variant A is `src/cmd/main.py`: books are addressed by an externally chosen
string identifier stored in the `ID` field.  Variant B is `src/cmd/test.py`:
books are addressed by the datastore-generated `_id` (a 24-hex-digit
ObjectId) and `BookISBN` is the unique key.

A BSON/JSON scalar is modelled by `BVal` (the source only ever stores
strings and integers in book fields); a document (a Mongo document or a
JSON object) is an ordered association list with unique keys, `Doc`.
A store is the list of documents of the `information` collection, in
natural (insertion) order.
-/

/-- A scalar value stored in a document field: a string or an integer
(the two kinds the source puts into book documents). -/
inductive BVal where
  | s : String → BVal
  | i : Int → BVal
deriving DecidableEq, Repr

/-- A document: an ordered association list of field name / value pairs,
as a Mongo document or a parsed JSON object. -/
abbrev Doc := List (String × BVal)

/-- Field access, `doc.get(key)` / `doc[key]` returning `none` when the
field is absent.  Reads the first occurrence of the key. -/
def dget : Doc → String → Option BVal
  | [], _ => none
  | (k, v) :: rest, key => if k = key then some v else dget rest key

/-- `doc.get(key, default)`. -/
def dgetD (d : Doc) (key : String) (dflt : BVal) : BVal :=
  (dget d key).getD dflt

/-- Mongo `$set` of a single field (also Python `dict[key] = value`):
replaces the value in place if the key exists, else appends the field. -/
def dset : Doc → String → BVal → Doc
  | [], key, v => [(key, v)]
  | (k, w) :: rest, key, v =>
      if k = key then (key, v) :: rest else (k, w) :: dset rest key v

/-- Mongo `$set` with a whole update document: sets each field in order. -/
def applySet : Doc → Doc → Doc
  | d, [] => d
  | d, (k, v) :: rest => applySet (dset d k v) rest

/-- Mongo equality-filter matching: the document has every filter field
with exactly the filter's value. -/
def matchesFilter (d : Doc) (filter : Doc) : Bool :=
  filter.all (fun kv => decide (dget d kv.1 = some kv.2))

/-- Python `str()` of a stored scalar. -/
def pyStr : BVal → String
  | .s v => v
  | .i n => toString n

/-- Python truthiness of a stored scalar (`if book.get("BookAuthor")`):
the empty string and the integer 0 are falsy. -/
def BVal.truthy : BVal → Bool
  | .s v => v ≠ ""
  | .i n => n ≠ 0

/-! ## Variant A (`main.py`): external string identifiers -/

/-- `required_fields` of variant A's `create_book`. -/
def requiredFieldsA : List String := ["id", "title", "author"]

/-- The filter of variant A's pre-insert duplicate check — and also,
field for field, the document `create_book` inserts on success. -/
def createFilterA (data : Doc) : Doc :=
  [("ID",         dgetD data "id"      (BVal.s "")),
   ("BookName",   dgetD data "title"   (BVal.s "")),
   ("BookAuthor", dgetD data "author"  (BVal.s "")),
   ("BookEdition", dgetD data "edition" (BVal.s "")),
   ("BookPages",  dgetD data "pages"   (BVal.s "")),
   ("BookYear",   dgetD data "year"    (BVal.s ""))]

/-- Outcome of variant A's `POST /api/books`. -/
inductive CreateResA where
  | missingField (f : String)  -- 400
  | conflict                   -- 409
  | created                    -- 201
deriving DecidableEq, Repr

/-- Variant A `create_book`: required-field check, full-tuple duplicate
check, then `insert_one`. -/
def create_book_A (store : List Doc) (data : Doc) : CreateResA × List Doc :=
  match requiredFieldsA.find? (fun f => (dget data f).isNone) with
  | some f => (.missingField f, store)
  | none =>
      if store.any (fun d => matchesFilter d (createFilterA data)) then
        (.conflict, store)
      else
        -- the inserted `book` dict has exactly the filter's fields and values
        (.created, store ++ [createFilterA data])

/-- `allowed_fields` of variant A's `update_book`, in insertion order. -/
def allowedFieldsA : List (String × String) :=
  [("id", "ID"), ("title", "BookName"), ("author", "BookAuthor"),
   ("edition", "BookEdition"), ("pages", "BookPages"), ("year", "BookYear")]

/-- Variant A's `update_fields`: every allow-listed external key present in
the payload, except `id`, mapped to its internal name. -/
def updateFieldsA (data : Doc) : Doc :=
  allowedFieldsA.filterMap (fun km =>
    if km.1 = "id" then none
    else (dget data km.1).map (fun w => (km.2, w)))

/-- The filter of variant A's pre-update duplicate re-check (line 146 of
`main.py`); `title` and `author` are read with `data[...]`, the rest with
`data.get(..., "")`. -/
def updateFilterA (bookId : String) (data : Doc) : Doc :=
  [("ID",         BVal.s bookId),
   ("BookName",   dgetD data "title"   (BVal.s "")),
   ("BookAuthor", dgetD data "author"  (BVal.s "")),
   ("BookEdition", dgetD data "edition" (BVal.s "")),
   ("BookPages",  dgetD data "pages"   (BVal.s "")),
   ("BookYear",   dgetD data "year"    (BVal.s ""))]

/-- Outcome of variant A's `PUT /api/books/<id>`. -/
inductive UpdateResA where
  | invalidBody    -- 400, empty body
  | noValidFields  -- 400, nothing mapped
  | keyError       -- 500: `data["title"]` / `data["author"]` raised KeyError
  | conflict       -- 409
  | notFound       -- 404
  | ok             -- 200
deriving DecidableEq, Repr

/-- Variant A `update_book`: body check, allow-list mapping, duplicate
re-check (which indexes `data["title"]` and `data["author"]` directly and
so raises `KeyError` when either is absent), then `update_many` on `ID`
followed by the matched-count test. -/
def update_book_A (store : List Doc) (bookId : String) (data : Doc) :
    UpdateResA × List Doc :=
  if data = [] then (.invalidBody, store)
  else
    let uf := updateFieldsA data
    if uf = [] then (.noValidFields, store)
    else
      match dget data "title" with
      | none => (.keyError, store)
      | some _ =>
          match dget data "author" with
          | none => (.keyError, store)
          | some _ =>
              if store.any (fun d => matchesFilter d (updateFilterA bookId data)) then
                (.conflict, store)
              else
                let matched :=
                  store.countP (fun d => decide (dget d "ID" = some (BVal.s bookId)))
                if matched = 0 then (.notFound, store)
                else
                  (.ok, store.map (fun d =>
                    if dget d "ID" = some (BVal.s bookId) then applySet d uf else d))

/-- Mongo `delete_one`: remove the first document matching the predicate,
returning the deleted count (0 or 1) and the remaining store. -/
def deleteOne (p : Doc → Bool) : List Doc → Nat × List Doc
  | [] => (0, [])
  | d :: rest =>
      if p d then (1, rest)
      else ((deleteOne p rest).1, d :: (deleteOne p rest).2)

/-- Outcome of `DELETE /api/books/<id>`. -/
inductive DeleteRes where
  | invalidId          -- 400 (variant B only: malformed ObjectId)
  | notFound           -- 404
  | deleted (n : Nat)  -- 200, reporting the deleted count
deriving DecidableEq, Repr

/-- Variant A `delete_book`: `delete_one({"ID": book_id})` then the
deleted-count test. -/
def delete_book_A (store : List Doc) (bookId : String) : DeleteRes × List Doc :=
  let r := deleteOne (fun d => decide (dget d "ID" = some (BVal.s bookId))) store
  if r.1 = 0 then (.notFound, store) else (.deleted r.1, r.2)

/-- Variant A's per-document external rendering in `find_all_books`:
every internal field is read with `.get(..., "")`, and `ID` additionally
passes through `str()`. -/
def toExternalA (d : Doc) : Doc :=
  [("id",     BVal.s (pyStr (dgetD d "ID" (BVal.s "")))),
   ("title",  dgetD d "BookName"   (BVal.s "")),
   ("author", dgetD d "BookAuthor" (BVal.s "")),
   ("edition", dgetD d "BookEdition" (BVal.s "")),
   ("pages",  dgetD d "BookPages"  (BVal.s "")),
   ("year",   dgetD d "BookYear"   (BVal.s ""))]

/-- Variant A `find_all_books`. -/
def find_all_books_A (store : List Doc) : List Doc :=
  store.map toExternalA

/-- The values of a scalar list when they are all strings. -/
def asStrings : List BVal → Option (List String)
  | [] => some []
  | BVal.s v :: rest => (asStrings rest).map (v :: ·)
  | BVal.i _ :: _ => none

/-- The values of a scalar list when they are all integers. -/
def asInts : List BVal → Option (List Int)
  | [] => some []
  | BVal.i v :: rest => (asInts rest).map (v :: ·)
  | BVal.s _ :: _ => none

/-- Python `sorted` over scalar values: ascending lexicographic order for
an all-string list, ascending numeric order for an all-integer list, and a
`TypeError` (`none`) on a list mixing the two, since Python refuses to
compare `str` with `int`. -/
def pySorted (l : List BVal) : Option (List BVal) :=
  match asStrings l with
  | some ss => some ((List.insertionSort (· ≤ ·) ss).map BVal.s)
  | none =>
      match asInts l with
      | some ns => some ((List.insertionSort (· ≤ ·) ns).map BVal.i)
      | none => none

/-- Sorted distinct truthy values of one internal field: variant A's
`/authors` and `/years` routes build the set of present, truthy values
with a comprehension, then order it with Python `sorted`. -/
def distinctTruthyA (store : List Doc) (field : String) : Option (List BVal) :=
  pySorted ((store.filterMap (fun d => dget d field)).filter BVal.truthy).dedup

/-- Variant A `/authors`. -/
def authors_A (store : List Doc) : Option (List BVal) :=
  distinctTruthyA store "BookAuthor"

/-- Variant A `/years`. -/
def years_A (store : List Doc) : Option (List BVal) :=
  distinctTruthyA store "BookYear"

/-! ## Variant B (`test.py`): ObjectId identifiers, ISBN unique key -/

/-- `required_fields` of variant B's `create_book`. -/
def requiredFieldsB : List String :=
  ["BookName", "BookAuthor", "BookISBN", "BookPages", "BookYear"]

/-- Hexadecimal digit test, as accepted by `bson.ObjectId`. -/
def isHexDigit (c : Char) : Bool :=
  ('0' ≤ c && c ≤ '9') || ('a' ≤ c && c ≤ 'f') || ('A' ≤ c && c ≤ 'F')

/-- `bson.ObjectId(book_id)`: a 24-hex-digit string parses to the
identifier (canonically lower-case, as `str(ObjectId(...))` renders it);
anything else raises `InvalidId`, surfaced as HTTP 400. -/
def parseObjectId (sid : String) : Option String :=
  if sid.length = 24 && sid.toList.all isHexDigit then
    some (String.mk (sid.toList.map Char.toLower))
  else none

/-- Outcome of variant B's `POST /api/books`. -/
inductive CreateResB where
  | invalidBody                 -- 400, empty body
  | missingField (f : String)   -- 400
  | conflict                    -- 409
  | created (newId : String)    -- 201, with the generated identifier
deriving DecidableEq, Repr

/-- Variant B `create_book`: body check, required-field check, duplicate
check on `BookISBN` alone, then `insert_one`.  `newId` is the ObjectId the
datastore generates for the inserted document. -/
def create_book_B (newId : String) (store : List Doc) (data : Doc) :
    CreateResB × List Doc :=
  if data = [] then (.invalidBody, store)
  else
    match requiredFieldsB.find? (fun f => (dget data f).isNone) with
    | some f => (.missingField f, store)
    | none =>
        let isbn := dgetD data "BookISBN" (BVal.s "")
        if store.any (fun d => decide (dget d "BookISBN" = some isbn)) then
          (.conflict, store)
        else
          let doc : Doc :=
            ("_id", BVal.s newId) ::
              requiredFieldsB.map (fun f => (f, dgetD data f (BVal.s "")))
          (.created newId, store ++ [doc])

/-- `field_mapping` of variant B's `update_book`: the internal names map
to themselves, in insertion order. -/
def fieldMappingB : List (String × String) :=
  [("BookName", "BookName"), ("BookAuthor", "BookAuthor"),
   ("BookISBN", "BookISBN"), ("BookPages", "BookPages"),
   ("BookYear", "BookYear")]

/-- Variant B's `update_fields`: every mapped key present in the payload. -/
def updateFieldsB (data : Doc) : Doc :=
  fieldMappingB.filterMap (fun km =>
    (dget data km.1).map (fun w => (km.2, w)))

/-- Mongo `update_one` on `{"_id": oid}` with `{"$set": fields}`:
`(matched_count, modified_count, new store)`; only the first matching
document is updated, and it counts as modified only when the `$set`
actually changed it. -/
def updateOneB (oid : String) (fields : Doc) : List Doc → Nat × Nat × List Doc
  | [] => (0, 0, [])
  | d :: rest =>
      if dget d "_id" = some (BVal.s oid) then
        (1, if applySet d fields = d then 0 else 1, applySet d fields :: rest)
      else
        ((updateOneB oid fields rest).1, (updateOneB oid fields rest).2.1,
          d :: (updateOneB oid fields rest).2.2)

/-- Outcome of variant B's `PUT /api/books/<id>`. -/
inductive UpdateResB where
  | invalidBody    -- 400, empty body
  | invalidId      -- 400, malformed ObjectId
  | noValidFields  -- 400, nothing mapped
  | notFound       -- 404
  | okNoChanges    -- 200, "no changes were applied (data was identical)"
  | okUpdated      -- 200, "Book updated successfully."
deriving DecidableEq, Repr

/-- Variant B `update_book`: body check, ObjectId parse, field mapping,
`update_one` on `_id`, then the matched-count and modified-count tests. -/
def update_book_B (store : List Doc) (bookId : String) (data : Doc) :
    UpdateResB × List Doc :=
  if data = [] then (.invalidBody, store)
  else
    match parseObjectId bookId with
    | none => (.invalidId, store)
    | some oid =>
        let uf := updateFieldsB data
        if uf = [] then (.noValidFields, store)
        else
          let r := updateOneB oid uf store
          if r.1 = 0 then (.notFound, store)
          else if r.2.1 = 0 then (.okNoChanges, r.2.2)
          else (.okUpdated, r.2.2)

/-- Variant B `delete_book`: ObjectId parse, `delete_one({"_id": oid})`,
then the deleted-count test. -/
def delete_book_B (store : List Doc) (bookId : String) : DeleteRes × List Doc :=
  match parseObjectId bookId with
  | none => (.invalidId, store)
  | some oid =>
      let r := deleteOne (fun d => decide (dget d "_id" = some (BVal.s oid))) store
      if r.1 = 0 then (.notFound, store) else (.deleted r.1, r.2)

/-- Sorted distinct values of one field, variant B's `/authors` and
`/years` routes: `collection.distinct(field)` yields the deduplicated
values of the field over the documents that carry it (empty strings are
values like any other), then Python `sorted` orders them. -/
def distinctB (store : List Doc) (field : String) : Option (List BVal) :=
  pySorted ((store.filterMap (fun d => dget d field)).dedup)

/-- Variant B `/authors`. -/
def authors_B (store : List Doc) : Option (List BVal) :=
  distinctB store "BookAuthor"

/-- Variant B `/years`. -/
def years_B (store : List Doc) : Option (List BVal) :=
  distinctB store "BookYear"

/-- Strict ascending order on homogeneous scalar values: Python `<` on two
strings or two integers (cross-type comparison does not occur in a list
`sorted` accepted). -/
def bvalLt : BVal → BVal → Prop
  | BVal.s x, BVal.s y => x < y
  | BVal.i x, BVal.i y => x < y
  | _, _ => False


/-! ## Association-list lemmas -/

theorem dget_nil (key : String) : dget [] key = none := rfl

theorem dget_cons (k : String) (v : BVal) (rest : Doc) (key : String) :
    dget ((k, v) :: rest) key = if k = key then some v else dget rest key := rfl

/-- Setting a field to the value it already holds leaves the document
unchanged. -/
theorem dset_self : ∀ (d : Doc) (k : String) (v : BVal),
    dget d k = some v → dset d k v = d
  | [], k, v, h => by simp [dget] at h
  | (k0, v0) :: rest, k, v, h => by
      by_cases hk : k0 = k
      · subst hk
        simp [dget] at h
        simp [dset, h]
      · rw [dget_cons, if_neg hk] at h
        simp [dset, hk, dset_self rest k v h]

theorem dget_dset_eq : ∀ (d : Doc) (k : String) (v : BVal),
    dget (dset d k v) k = some v
  | [], k, v => by simp [dset, dget]
  | (k0, v0) :: rest, k, v => by
      by_cases hk : k0 = k
      · subst hk
        simp [dset, dget]
      · simp [dset, hk, dget, dget_dset_eq rest k v]

theorem dget_dset_ne : ∀ (d : Doc) (k : String) (v : BVal) (key : String),
    k ≠ key → dget (dset d k v) key = dget d key
  | [], k, v, key, h => by simp [dset, dget, h]
  | (k0, v0) :: rest, k, v, key, h => by
      by_cases hk : k0 = k
      · subst hk
        simp [dset, dget, h]
      · rw [dset, if_neg hk, dget_cons, dget_cons, dget_dset_ne rest k v key h]

/-- A field outside the update document is untouched by `$set`. -/
theorem dget_applySet_not_mem : ∀ (fields : Doc) (d : Doc) (key : String),
    key ∉ fields.map Prod.fst → dget (applySet d fields) key = dget d key
  | [], _, _, _ => rfl
  | (k0, v0) :: rest, d, key, h => by
      rw [List.map_cons, List.mem_cons, not_or] at h
      rw [applySet, dget_applySet_not_mem rest _ key h.2,
        dget_dset_ne d k0 v0 key (fun he => h.1 he.symm)]

/-- A field of the update document ends with exactly the update's value
(the update's keys being distinct, as built from the allow-lists). -/
theorem dget_applySet_mem : ∀ (fields : Doc) (d : Doc) (key : String) (v : BVal),
    (fields.map Prod.fst).Nodup → (key, v) ∈ fields →
    dget (applySet d fields) key = some v
  | [], _, _, _, _, hm => by cases hm
  | (k0, v0) :: rest, d, key, v, hn, hm => by
      rw [List.map_cons, List.nodup_cons] at hn
      rcases List.mem_cons.mp hm with h | h
      · injection h with h1 h2
        subst h1
        subst h2
        rw [applySet, dget_applySet_not_mem rest _ _ hn.1, dget_dset_eq]
      · rw [applySet]
        exact dget_applySet_mem rest _ key v hn.2 h

/-- A `$set` whose every field already holds the written value is the
identity on the document. -/
theorem applySet_self : ∀ (fields : Doc) (d : Doc),
    (∀ kv ∈ fields, dget d kv.1 = some kv.2) → applySet d fields = d
  | [], _, _ => rfl
  | (k0, v0) :: rest, d, h => by
      have h0 : dget d k0 = some v0 := h (k0, v0) (List.mem_cons_self _ _)
      rw [applySet, dset_self d k0 v0 h0]
      exact applySet_self rest d (fun kv hkv => h kv (List.mem_cons_of_mem _ hkv))

/-- Membership in a mapped update payload: exactly the mapping's
non-skipped external keys present in the payload are copied, each to its
internal name with the payload's value. -/
theorem mem_mappedFields (m : List (String × String)) (skip : String → Prop)
    [DecidablePred skip] (data : Doc) (key : String) (v : BVal) :
    ((key, v) ∈ m.filterMap (fun km =>
        if skip km.1 then none else (dget data km.1).map (fun w => (km.2, w))) ↔
      ∃ ek, (ek, key) ∈ m ∧ ¬ skip ek ∧ dget data ek = some v) := by
  rw [List.mem_filterMap]
  constructor
  · rintro ⟨⟨e, n⟩, hmem, hf⟩
    have hf : (if skip e then none
        else (dget data e).map (fun w => (n, w))) = some (key, v) := hf
    by_cases hs : skip e
    · rw [if_pos hs] at hf
      cases hf
    · rw [if_neg hs] at hf
      cases hdg : dget data e with
      | none =>
          rw [hdg] at hf
          cases hf
      | some w =>
          rw [hdg] at hf
          have hf : ((n, w) : String × BVal) = (key, v) := Option.some.inj hf
          injection hf with h1 h2
          subst h1
          subst h2
          exact ⟨e, hmem, hs, hdg⟩
  · rintro ⟨ek, hmem, hok, hv⟩
    refine ⟨(ek, key), hmem, ?_⟩
    show (if skip ek then none
        else (dget data ek).map (fun w => (key, w))) = some (key, v)
    rw [if_neg hok, hv]
    rfl

/-- Variant A copies exactly the allow-listed keys other than `id`. -/
theorem mem_updateFieldsA (data : Doc) (key : String) (v : BVal) :
    ((key, v) ∈ updateFieldsA data ↔
      ∃ ek, (ek, key) ∈ allowedFieldsA ∧ ek ≠ "id" ∧ dget data ek = some v) :=
  mem_mappedFields allowedFieldsA (· = "id") data key v

/-- Variant B copies exactly the mapped keys. -/
theorem mem_updateFieldsB (data : Doc) (key : String) (v : BVal) :
    ((key, v) ∈ updateFieldsB data ↔
      key ∈ requiredFieldsB ∧ dget data key = some v) := by
  have h := mem_mappedFields fieldMappingB (fun _ => False) data key v
  have he : updateFieldsB data = fieldMappingB.filterMap (fun km =>
      if False then none else (dget data km.1).map (fun w => (km.2, w))) := by
    simp [updateFieldsB]
  rw [he, h]
  constructor
  · rintro ⟨ek, hek, -, hv⟩
    have hcases : (ek = "BookName" ∧ key = "BookName") ∨
        (ek = "BookAuthor" ∧ key = "BookAuthor") ∨
        (ek = "BookISBN" ∧ key = "BookISBN") ∨
        (ek = "BookPages" ∧ key = "BookPages") ∨
        (ek = "BookYear" ∧ key = "BookYear") := by
      simpa [fieldMappingB, Prod.ext_iff] using hek
    rcases hcases with ⟨h1, h2⟩ | ⟨h1, h2⟩ | ⟨h1, h2⟩ | ⟨h1, h2⟩ | ⟨h1, h2⟩ <;>
      subst h1 <;> subst h2 <;>
      exact ⟨by simp [requiredFieldsB], hv⟩
  · rintro ⟨hk, hv⟩
    refine ⟨key, ?_, not_false, hv⟩
    have hcases : key = "BookName" ∨ key = "BookAuthor" ∨ key = "BookISBN" ∨
        key = "BookPages" ∨ key = "BookYear" := by
      simpa [requiredFieldsB] using hk
    rcases hcases with h1 | h1 | h1 | h1 | h1 <;> subst h1 <;> simp [fieldMappingB]

/-- The internal identifier field `ID` is never among variant A's mapped
update keys: the mapping skips the external `id` key, and no other
allow-list entry maps to `ID`. -/
theorem updateFieldsA_key_ne_ID (data : Doc) :
    ∀ kv ∈ updateFieldsA data, kv.1 ≠ "ID" := by
  rintro ⟨key, v⟩ hm
  show key ≠ "ID"
  rw [mem_updateFieldsA] at hm
  obtain ⟨ek, hek, hid, -⟩ := hm
  have hcases : (ek = "id" ∧ key = "ID") ∨ (ek = "title" ∧ key = "BookName") ∨
      (ek = "author" ∧ key = "BookAuthor") ∨ (ek = "edition" ∧ key = "BookEdition") ∨
      (ek = "pages" ∧ key = "BookPages") ∨ (ek = "year" ∧ key = "BookYear") := by
    simpa [allowedFieldsA, Prod.ext_iff] using hek
  rcases hcases with ⟨h1, -⟩ | ⟨-, h2⟩ | ⟨-, h2⟩ | ⟨-, h2⟩ | ⟨-, h2⟩ | ⟨-, h2⟩
  · exact absurd h1 hid
  all_goals subst h2
  all_goals decide

/-- A payload carrying `title` maps to a non-empty update document. -/
theorem updateFieldsA_ne_nil (data : Doc) (tv : BVal)
    (ht : dget data "title" = some tv) : updateFieldsA data ≠ [] := by
  refine List.ne_nil_of_mem (a := ("BookName", tv)) ?_
  rw [mem_updateFieldsA]
  exact ⟨"title", by simp [allowedFieldsA], by decide, ht⟩

/-- A payload carrying `BookName` maps to a non-empty update document in
variant B. -/
theorem updateFieldsB_ne_nil (data : Doc) (tv : BVal)
    (ht : dget data "BookName" = some tv) : updateFieldsB data ≠ [] := by
  refine List.ne_nil_of_mem (a := ("BookName", tv)) ?_
  rw [mem_updateFieldsB]
  exact ⟨by simp [requiredFieldsB], ht⟩

/-- A document matching a filter agrees with the filter's head field. -/
theorem matchesFilter_head (d : Doc) (k : String) (v : BVal) (rest : Doc)
    (h : matchesFilter d ((k, v) :: rest) = true) : dget d k = some v := by
  rw [matchesFilter, List.all_cons, Bool.and_eq_true] at h
  exact of_decide_eq_true h.1

/-! ## `update_one` / `delete_one` behaviour -/

theorem updateOneB_nomatch (oid : String) (fields : Doc) : ∀ (l : List Doc),
    (∀ d ∈ l, ¬ dget d "_id" = some (BVal.s oid)) →
    updateOneB oid fields l = (0, 0, l)
  | [], _ => rfl
  | d :: rest, h => by
      rw [updateOneB, if_neg (h d (List.mem_cons_self _ _)),
        updateOneB_nomatch oid fields rest
          (fun x hx => h x (List.mem_cons_of_mem _ hx))]

theorem updateOneB_found (oid : String) (fields : Doc) :
    ∀ (pre : List Doc) (d : Doc) (post : List Doc),
    (∀ e ∈ pre, ¬ dget e "_id" = some (BVal.s oid)) →
    dget d "_id" = some (BVal.s oid) →
    updateOneB oid fields (pre ++ d :: post) =
      (1, if applySet d fields = d then 0 else 1, pre ++ applySet d fields :: post)
  | [], d, post, _, hd => by
      rw [List.nil_append, updateOneB, if_pos hd, List.nil_append]
  | e :: pre, d, post, hpre, hd => by
      rw [List.cons_append, updateOneB,
        if_neg (hpre e (List.mem_cons_self _ _)),
        updateOneB_found oid fields pre d post
          (fun x hx => hpre x (List.mem_cons_of_mem _ hx)) hd,
        List.cons_append]

theorem deleteOne_count_le_one (p : Doc → Bool) : ∀ (l : List Doc),
    (deleteOne p l).1 ≤ 1
  | [] => Nat.zero_le 1
  | d :: rest => by
      rw [deleteOne]
      by_cases h : p d
      · rw [if_pos h]
      · rw [if_neg h]
        exact deleteOne_count_le_one p rest

theorem deleteOne_nomatch (p : Doc → Bool) : ∀ (l : List Doc),
    (∀ d ∈ l, p d = false) → deleteOne p l = (0, l)
  | [], _ => rfl
  | d :: rest, h => by
      rw [deleteOne, if_neg (by rw [h d (List.mem_cons_self _ _)]; exact Bool.false_ne_true),
        deleteOne_nomatch p rest (fun x hx => h x (List.mem_cons_of_mem _ hx))]

theorem deleteOne_found (p : Doc → Bool) :
    ∀ (pre : List Doc) (d : Doc) (post : List Doc),
    (∀ e ∈ pre, p e = false) → p d = true →
    deleteOne p (pre ++ d :: post) = (1, pre ++ post)
  | [], d, post, _, hd => by
      rw [List.nil_append, deleteOne, if_pos hd, List.nil_append]
  | e :: pre, d, post, hpre, hd => by
      rw [List.cons_append, deleteOne,
        if_neg (by rw [hpre e (List.mem_cons_self _ _)]; exact Bool.false_ne_true),
        deleteOne_found p pre d post
          (fun x hx => hpre x (List.mem_cons_of_mem _ hx)) hd,
        List.cons_append]

/-! ## Sorting lemmas for the distinct-value listings -/

theorem asStrings_eq : ∀ (l : List BVal) (ss : List String),
    asStrings l = some ss → l = ss.map BVal.s
  | [], ss, h => by
      have h : ([] : List String) = ss := Option.some.inj h
      subst h
      rfl
  | BVal.s v :: rest, ss, h => by
      rw [asStrings] at h
      cases hr : asStrings rest with
      | none => rw [hr] at h; cases h
      | some ss0 =>
          rw [hr] at h
          have h : v :: ss0 = ss := Option.some.inj h
          subst h
          rw [List.map_cons, ← asStrings_eq rest ss0 hr]
  | BVal.i _ :: _, ss, h => by rw [asStrings] at h; cases h

theorem asInts_eq : ∀ (l : List BVal) (ns : List Int),
    asInts l = some ns → l = ns.map BVal.i
  | [], ns, h => by
      have h : ([] : List Int) = ns := Option.some.inj h
      subst h
      rfl
  | BVal.i v :: rest, ns, h => by
      rw [asInts] at h
      cases hr : asInts rest with
      | none => rw [hr] at h; cases h
      | some ns0 =>
          rw [hr] at h
          have h : v :: ns0 = ns := Option.some.inj h
          subst h
          rw [List.map_cons, ← asInts_eq rest ns0 hr]
  | BVal.s _ :: _, ns, h => by rw [asInts] at h; cases h

theorem pairwise_lt_of_le_nodup {α : Type} [LinearOrder α] :
    ∀ {l : List α}, List.Pairwise (fun a b => a ≤ b) l → l.Nodup →
      List.Pairwise (fun a b => a < b) l
  | [], _, _ => List.Pairwise.nil
  | a :: l, hs, hn => by
      rw [List.pairwise_cons] at hs ⊢
      rw [List.nodup_cons] at hn
      refine ⟨fun b hb => lt_of_le_of_ne (hs.1 b hb) ?_, pairwise_lt_of_le_nodup hs.2 hn.2⟩
      intro he
      exact hn.1 (by rw [he]; exact hb)

/-- What a successful Python `sorted` returns: a strictly ascending
enumeration (given distinct inputs) of exactly the input values. -/
theorem pySorted_spec (l0 l : List BVal) (h : pySorted l0 = some l)
    (hn : l0.Nodup) :
    List.Pairwise bvalLt l ∧ l.Nodup ∧ ∀ v, (v ∈ l ↔ v ∈ l0) := by
  rw [pySorted] at h
  cases hstr : asStrings l0 with
  | some ss =>
      rw [hstr] at h
      have hl : (List.insertionSort (fun a b => a ≤ b) ss).map BVal.s = l :=
        Option.some.inj h
      have hl0 : l0 = ss.map BVal.s := asStrings_eq l0 ss hstr
      have hsnd : ss.Nodup := by
        rw [hl0] at hn
        exact hn.of_map
      have hperm : List.Perm (List.insertionSort (fun a b => a ≤ b) ss) ss :=
        List.perm_insertionSort _ ss
      have hsorted : List.Pairwise (fun a b => a ≤ b)
          (List.insertionSort (fun a b => a ≤ b) ss) :=
        List.sorted_insertionSort _ ss
      have hnods : (List.insertionSort (fun a b => a ≤ b) ss).Nodup :=
        hperm.nodup_iff.mpr hsnd
      have hstrict := pairwise_lt_of_le_nodup hsorted hnods
      refine ⟨?_, ?_, ?_⟩
      · rw [← hl]
        exact hstrict.map BVal.s (fun a b hab => hab)
      · rw [← hl]
        exact hnods.map (fun a b hab => BVal.s.inj hab)
      · intro v
        rw [← hl, hl0, List.mem_map, List.mem_map]
        constructor
        · rintro ⟨x, hx, rfl⟩
          exact ⟨x, hperm.mem_iff.mp hx, rfl⟩
        · rintro ⟨x, hx, rfl⟩
          exact ⟨x, hperm.mem_iff.mpr hx, rfl⟩
  | none =>
      rw [hstr] at h
      cases hint : asInts l0 with
      | some ns =>
          rw [hint] at h
          have hl : (List.insertionSort (fun a b => a ≤ b) ns).map BVal.i = l :=
            Option.some.inj h
          have hl0 : l0 = ns.map BVal.i := asInts_eq l0 ns hint
          have hsnd : ns.Nodup := by
            rw [hl0] at hn
            exact hn.of_map
          have hperm : List.Perm (List.insertionSort (fun a b => a ≤ b) ns) ns :=
            List.perm_insertionSort _ ns
          have hsorted : List.Pairwise (fun a b => a ≤ b)
              (List.insertionSort (fun a b => a ≤ b) ns) :=
            List.sorted_insertionSort _ ns
          have hnods : (List.insertionSort (fun a b => a ≤ b) ns).Nodup :=
            hperm.nodup_iff.mpr hsnd
          have hstrict := pairwise_lt_of_le_nodup hsorted hnods
          refine ⟨?_, ?_, ?_⟩
          · rw [← hl]
            exact hstrict.map BVal.i (fun a b hab => hab)
          · rw [← hl]
            exact hnods.map (fun a b hab => BVal.i.inj hab)
          · intro v
            rw [← hl, hl0, List.mem_map, List.mem_map]
            constructor
            · rintro ⟨x, hx, rfl⟩
              exact ⟨x, hperm.mem_iff.mp hx, rfl⟩
            · rintro ⟨x, hx, rfl⟩
              exact ⟨x, hperm.mem_iff.mpr hx, rfl⟩
      | none =>
          rw [hint] at h
          cases h

/-- Mapping a function that fixes every member is the identity. -/
theorem map_self_of_mem {α : Type} (f : α → α) :
    ∀ (l : List α), (∀ a ∈ l, f a = a) → l.map f = l
  | [], _ => rfl
  | a :: l, h => by
      rw [List.map_cons, h a (List.mem_cons_self _ _),
        map_self_of_mem f l (fun x hx => h x (List.mem_cons_of_mem _ hx))]

/-- The internal `ID` key never appears among variant A's mapped update
keys. -/
theorem id_not_mem_updateFieldsA_keys (data : Doc) :
    "ID" ∉ (updateFieldsA data).map Prod.fst := by
  intro hmem
  obtain ⟨kv, hkv, hfst⟩ := List.mem_map.mp hmem
  exact updateFieldsA_key_ne_ID data kv hkv hfst

/-- Claim C9: in variant A, `update_book` never modifies any stored
record's `ID` field — the external `id` key is in the allow-list mapping
but is explicitly skipped, so on every path (success or failure) every
document's `ID` field is exactly what it was before the call. -/
theorem update_book_A_preserves_ID (store : List Doc) (bookId : String) (data : Doc) :
    (update_book_A store bookId data).2.map (fun d => dget d "ID") =
      store.map (fun d => dget d "ID") := by
  rw [update_book_A]
  by_cases h0 : data = []
  · rw [if_pos h0]
  · rw [if_neg h0]
    show ((if updateFieldsA data = [] then _ else _ : UpdateResA × List Doc)).2.map _ = _
    by_cases h1 : updateFieldsA data = []
    · rw [if_pos h1]
    · rw [if_neg h1]
      cases ht : dget data "title" with
      | none => rfl
      | some tv =>
          cases ha : dget data "author" with
          | none => rfl
          | some av =>
              by_cases h2 : store.any
                  (fun d => matchesFilter d (updateFilterA bookId data)) = true
              · rw [if_pos h2]
              · rw [if_neg h2]
                by_cases h3 : store.countP
                    (fun d => decide (dget d "ID" = some (BVal.s bookId))) = 0
                · rw [if_pos h3]
                · rw [if_neg h3]
                  show (store.map _).map _ = _
                  rw [List.map_map]
                  refine List.map_congr_left (fun d hd => ?_)
                  show dget (if dget d "ID" = some (BVal.s bookId)
                    then applySet d (updateFieldsA data) else d) "ID" = dget d "ID"
                  by_cases hm : dget d "ID" = some (BVal.s bookId)
                  · rw [if_pos hm]
                    exact dget_applySet_not_mem (updateFieldsA data) d "ID"
                      (id_not_mem_updateFieldsA_keys data)
                  · rw [if_neg hm]

/-- Claim C10: variant A's listing is total over malformed stored
documents — every document is rendered (the output has one entry per
stored record), each internal field is read with a `""` default, and a
missing internal field surfaces as the empty string under its external
name. -/
theorem find_all_books_A_total (store : List Doc) (d : Doc) :
    (find_all_books_A store).length = store.length ∧
    find_all_books_A store = store.map toExternalA ∧
    dget (toExternalA d) "id" = some (BVal.s (pyStr (dgetD d "ID" (BVal.s "")))) ∧
    dget (toExternalA d) "title" = some (dgetD d "BookName" (BVal.s "")) ∧
    dget (toExternalA d) "author" = some (dgetD d "BookAuthor" (BVal.s "")) ∧
    dget (toExternalA d) "edition" = some (dgetD d "BookEdition" (BVal.s "")) ∧
    dget (toExternalA d) "pages" = some (dgetD d "BookPages" (BVal.s "")) ∧
    dget (toExternalA d) "year" = some (dgetD d "BookYear" (BVal.s "")) ∧
    (dget d "ID" = none → dget (toExternalA d) "id" = some (BVal.s "")) ∧
    (dget d "BookName" = none → dget (toExternalA d) "title" = some (BVal.s "")) ∧
    (dget d "BookAuthor" = none → dget (toExternalA d) "author" = some (BVal.s "")) ∧
    (dget d "BookEdition" = none → dget (toExternalA d) "edition" = some (BVal.s "")) ∧
    (dget d "BookPages" = none → dget (toExternalA d) "pages" = some (BVal.s "")) ∧
    (dget d "BookYear" = none → dget (toExternalA d) "year" = some (BVal.s "")) := by
  refine ⟨List.length_map .., rfl, rfl, rfl, rfl, rfl, rfl, rfl,
    ?_, ?_, ?_, ?_, ?_, ?_⟩ <;>
    intro h <;>
    simp [toExternalA, dget, dgetD, h, pyStr]

/-- Witness for C10 at a fully malformed document (all fields missing). -/
theorem find_all_books_A_total_witness :
    dget (toExternalA []) "title" = some (BVal.s "") ∧
    dget (toExternalA []) "id" = some (BVal.s "") :=
  ⟨((find_all_books_A_total [] []).2.2.2.2.2.2.2.2.2.1) rfl,
    ((find_all_books_A_total [] []).2.2.2.2.2.2.2.2.1) rfl⟩

/-- A non-empty document is forced by a present field. -/
theorem ne_nil_of_dget_isSome (data : Doc) (f : String)
    (h : (dget data f).isNone = false) : data ≠ [] := by
  intro he
  subst he
  simp [dget] at h

/-- Claim C5: a create payload missing at least one required field is
rejected with a 400 `ValidationError` and the store is unchanged, in both
variants (variant B answers 400 for an empty body as well, before the
per-field check). -/
theorem create_missing_required_field_rejected
    (storeA : List Doc) (dataA : Doc)
    (hA : ∃ f ∈ requiredFieldsA, dget dataA f = none)
    (newId : String) (storeB : List Doc) (dataB : Doc)
    (hB : ∃ f ∈ requiredFieldsB, dget dataB f = none) :
    ((create_book_A storeA dataA).2 = storeA ∧
      ∃ f, (create_book_A storeA dataA).1 = CreateResA.missingField f) ∧
    ((create_book_B newId storeB dataB).2 = storeB ∧
      ((create_book_B newId storeB dataB).1 = CreateResB.invalidBody ∨
        ∃ f, (create_book_B newId storeB dataB).1 = CreateResB.missingField f)) := by
  constructor
  · have hsome : (requiredFieldsA.find? (fun f => (dget dataA f).isNone)).isSome := by
      rw [List.find?_isSome]
      obtain ⟨f, hf, hnone⟩ := hA
      exact ⟨f, hf, by rw [hnone]; rfl⟩
    obtain ⟨f, hf⟩ := Option.isSome_iff_exists.mp hsome
    rw [create_book_A, hf]
    exact ⟨rfl, f, rfl⟩
  · by_cases h0 : dataB = []
    · rw [create_book_B, if_pos h0]
      exact ⟨rfl, Or.inl rfl⟩
    · have hsome : (requiredFieldsB.find? (fun f => (dget dataB f).isNone)).isSome := by
        rw [List.find?_isSome]
        obtain ⟨f, hf, hnone⟩ := hB
        exact ⟨f, hf, by rw [hnone]; rfl⟩
      obtain ⟨f, hf⟩ := Option.isSome_iff_exists.mp hsome
      rw [create_book_B, if_neg h0, hf]
      exact ⟨rfl, Or.inr ⟨f, rfl⟩⟩

/-- Witness for C5: creating with `{"title": "T"}` (variant A) or
`{"BookAuthor": "a"}` (variant B) over the empty store. -/
theorem create_missing_required_field_rejected_witness :
    ((create_book_A [] [("title", BVal.s "T")]).2 = [] ∧
      ∃ f, (create_book_A [] [("title", BVal.s "T")]).1 = CreateResA.missingField f) ∧
    ((create_book_B "aa" [] [("BookAuthor", BVal.s "a")]).2 = [] ∧
      ((create_book_B "aa" [] [("BookAuthor", BVal.s "a")]).1 = CreateResB.invalidBody ∨
        ∃ f, (create_book_B "aa" [] [("BookAuthor", BVal.s "a")]).1
          = CreateResB.missingField f)) :=
  create_missing_required_field_rejected [] [("title", BVal.s "T")]
    ⟨"id", by simp [requiredFieldsA], by decide⟩
    "aa" [] [("BookAuthor", BVal.s "a")]
    ⟨"BookName", by simp [requiredFieldsB], by decide⟩

/-- Claim C4: a create whose identity duplicates a stored record — the
full field-value tuple in variant A, the `BookISBN` unique key alone in
variant B — is rejected with a 409 `ConflictError` and the store is
unchanged (given a payload that passes the preceding required-field
validation, which the identity presupposes). -/
theorem create_duplicate_identity_conflict
    (storeA : List Doc) (dataA : Doc)
    (hreqA : ∀ f ∈ requiredFieldsA, (dget dataA f).isNone = false)
    (hdupA : ∃ d ∈ storeA, matchesFilter d (createFilterA dataA) = true)
    (newId : String) (storeB : List Doc) (dataB : Doc)
    (hreqB : ∀ f ∈ requiredFieldsB, (dget dataB f).isNone = false)
    (hdupB : ∃ d ∈ storeB,
      dget d "BookISBN" = some (dgetD dataB "BookISBN" (BVal.s ""))) :
    create_book_A storeA dataA = (CreateResA.conflict, storeA) ∧
    create_book_B newId storeB dataB = (CreateResB.conflict, storeB) := by
  constructor
  · have hfind : requiredFieldsA.find? (fun f => (dget dataA f).isNone) = none := by
      rw [List.find?_eq_none]
      intro f hf
      rw [hreqA f hf]
      exact Bool.false_ne_true
    have hany : storeA.any (fun d => matchesFilter d (createFilterA dataA)) = true := by
      rw [List.any_eq_true]
      obtain ⟨d, hd, hm⟩ := hdupA
      exact ⟨d, hd, hm⟩
    rw [create_book_A, hfind, if_pos hany]
  · have h0 : dataB ≠ [] :=
      ne_nil_of_dget_isSome dataB "BookName"
        (hreqB "BookName" (by simp [requiredFieldsB]))
    have hfind : requiredFieldsB.find? (fun f => (dget dataB f).isNone) = none := by
      rw [List.find?_eq_none]
      intro f hf
      rw [hreqB f hf]
      exact Bool.false_ne_true
    have hany : storeB.any (fun d =>
        decide (dget d "BookISBN" = some (dgetD dataB "BookISBN" (BVal.s "")))) = true := by
      rw [List.any_eq_true]
      obtain ⟨d, hd, hm⟩ := hdupB
      exact ⟨d, hd, decide_eq_true hm⟩
    rw [create_book_B, if_neg h0, hfind]
    show (if storeB.any _ = true then _ else _ : CreateResB × List Doc) = _
    rw [if_pos hany]

/-- Witness for C4: re-creating the seeded "The Vortex" record (variant A)
and a record with a duplicate ISBN (variant B). -/
theorem create_duplicate_identity_conflict_witness :
    create_book_A
      [[("ID", BVal.s "example1"), ("BookName", BVal.s "The Vortex"),
        ("BookAuthor", BVal.s "Rivera"), ("BookEdition", BVal.s "958-30-0804-4"),
        ("BookPages", BVal.s "292"), ("BookYear", BVal.s "1924")]]
      [("id", BVal.s "example1"), ("title", BVal.s "The Vortex"),
        ("author", BVal.s "Rivera"), ("edition", BVal.s "958-30-0804-4"),
        ("pages", BVal.s "292"), ("year", BVal.s "1924")]
      = (CreateResA.conflict,
        [[("ID", BVal.s "example1"), ("BookName", BVal.s "The Vortex"),
          ("BookAuthor", BVal.s "Rivera"), ("BookEdition", BVal.s "958-30-0804-4"),
          ("BookPages", BVal.s "292"), ("BookYear", BVal.s "1924")]]) ∧
    create_book_B "bb" [[("_id", BVal.s "aa"), ("BookISBN", BVal.s "958-30-0804-4")]]
      [("BookName", BVal.s "n"), ("BookAuthor", BVal.s "a"),
        ("BookISBN", BVal.s "958-30-0804-4"), ("BookPages", BVal.i 1),
        ("BookYear", BVal.i 2)]
      = (CreateResB.conflict,
        [[("_id", BVal.s "aa"), ("BookISBN", BVal.s "958-30-0804-4")]]) :=
  create_duplicate_identity_conflict _ _
    (by decide) (⟨_, List.mem_cons_self _ _, by decide⟩)
    "bb" _ _
    (by decide) (⟨_, List.mem_cons_self _ _, by decide⟩)

/-- Claim C7: `delete(identifier)` answers 404 `NotFoundError` exactly
when no record matches; otherwise it removes exactly one record — the
first match — and reports a deleted count of 1 (the count is always 0
or 1, `delete_one` semantics); once the identifier was unique, no record
with it remains, so a subsequent listing excludes the removed record.
Variant B addresses records by parsed ObjectId. -/
theorem delete_removes_exactly_one
    (storeA : List Doc) (bidA : String)
    (storeB : List Doc) (bidB oidB : String)
    (hparse : parseObjectId bidB = some oidB) :
    ((∀ d ∈ storeA, ¬ dget d "ID" = some (BVal.s bidA)) →
      delete_book_A storeA bidA = (DeleteRes.notFound, storeA)) ∧
    (∀ pre d post, storeA = pre ++ d :: post →
      (∀ e ∈ pre, ¬ dget e "ID" = some (BVal.s bidA)) →
      dget d "ID" = some (BVal.s bidA) →
      (delete_book_A storeA bidA = (DeleteRes.deleted 1, pre ++ post) ∧
        ((∀ e ∈ post, ¬ dget e "ID" = some (BVal.s bidA)) →
          ∀ e ∈ pre ++ post, ¬ dget e "ID" = some (BVal.s bidA)))) ∧
    (∀ (p : Doc → Bool) (l : List Doc), (deleteOne p l).1 ≤ 1) ∧
    ((∀ d ∈ storeB, ¬ dget d "_id" = some (BVal.s oidB)) →
      delete_book_B storeB bidB = (DeleteRes.notFound, storeB)) ∧
    (∀ pre d post, storeB = pre ++ d :: post →
      (∀ e ∈ pre, ¬ dget e "_id" = some (BVal.s oidB)) →
      dget d "_id" = some (BVal.s oidB) →
      delete_book_B storeB bidB = (DeleteRes.deleted 1, pre ++ post)) := by
  refine ⟨?_, ?_, deleteOne_count_le_one, ?_, ?_⟩
  · intro hno
    have hdel : deleteOne (fun d => decide (dget d "ID" = some (BVal.s bidA))) storeA
        = (0, storeA) :=
      deleteOne_nomatch _ storeA (fun d hd => decide_eq_false (hno d hd))
    rw [delete_book_A]
    show (if (deleteOne _ storeA).1 = 0 then _ else _ : DeleteRes × List Doc) = _
    rw [hdel]
    rfl
  · intro pre d post hsplit hpre hd
    subst hsplit
    have hdel : deleteOne (fun d => decide (dget d "ID" = some (BVal.s bidA)))
        (pre ++ d :: post) = (1, pre ++ post) :=
      deleteOne_found _ pre d post (fun e he => decide_eq_false (hpre e he))
        (decide_eq_true hd)
    constructor
    · rw [delete_book_A]
      show (if (deleteOne _ _).1 = 0 then _ else _ : DeleteRes × List Doc) = _
      rw [hdel]
      rfl
    · intro hpost e he
      rcases List.mem_append.mp he with h | h
      · exact hpre e h
      · exact hpost e h
  · intro hno
    have hdel : deleteOne (fun d => decide (dget d "_id" = some (BVal.s oidB))) storeB
        = (0, storeB) :=
      deleteOne_nomatch _ storeB (fun d hd => decide_eq_false (hno d hd))
    rw [delete_book_B, hparse]
    show (if (deleteOne _ storeB).1 = 0 then _ else _ : DeleteRes × List Doc) = _
    rw [hdel]
    rfl
  · intro pre d post hsplit hpre hd
    subst hsplit
    have hdel : deleteOne (fun d => decide (dget d "_id" = some (BVal.s oidB)))
        (pre ++ d :: post) = (1, pre ++ post) :=
      deleteOne_found _ pre d post (fun e he => decide_eq_false (hpre e he))
        (decide_eq_true hd)
    rw [delete_book_B, hparse]
    show (if (deleteOne _ _).1 = 0 then _ else _ : DeleteRes × List Doc) = _
    rw [hdel]
    rfl

/-- Witness for C7: deleting `example1` from a two-record store removes
exactly the first record; deleting by an unknown ObjectId answers 404. -/
theorem delete_removes_exactly_one_witness :
    delete_book_A
      [[("ID", BVal.s "example1"), ("BookName", BVal.s "The Vortex")],
        [("ID", BVal.s "example2"), ("BookName", BVal.s "Frankenstein")]]
      "example1"
      = (DeleteRes.deleted 1,
          [[("ID", BVal.s "example2"), ("BookName", BVal.s "Frankenstein")]]) ∧
    delete_book_B [[("_id", BVal.s "64f1a2b3c4d5e6f708192a3b")]]
      "ffffffffffffffffffffffff"
      = (DeleteRes.notFound, [[("_id", BVal.s "64f1a2b3c4d5e6f708192a3b")]]) := by
  have h := delete_removes_exactly_one
    [[("ID", BVal.s "example1"), ("BookName", BVal.s "The Vortex")],
      [("ID", BVal.s "example2"), ("BookName", BVal.s "Frankenstein")]]
    "example1"
    [[("_id", BVal.s "64f1a2b3c4d5e6f708192a3b")]]
    "ffffffffffffffffffffffff" "ffffffffffffffffffffffff"
    (by decide)
  refine ⟨?_, ?_⟩
  · exact (h.2.1 []
      [("ID", BVal.s "example1"), ("BookName", BVal.s "The Vortex")]
      [[("ID", BVal.s "example2"), ("BookName", BVal.s "Frankenstein")]]
      rfl (by intro e he; cases he) (by decide)).1
  · exact h.2.2.2.1 (by decide)

/-- Counterexample to C2: in variant A the pre-insert check matches the
full field-value tuple, not the identifier, so a create that reuses the
stored identifier `x` with a different title and author is accepted —
afterwards two records share the identifier `x`. -/
theorem create_duplicate_id_accepted :
    (create_book_A
      [[("ID", BVal.s "x"), ("BookName", BVal.s "A"), ("BookAuthor", BVal.s "B"),
        ("BookEdition", BVal.s ""), ("BookPages", BVal.s ""), ("BookYear", BVal.s "")]]
      [("id", BVal.s "x"), ("title", BVal.s "C"), ("author", BVal.s "D")]).1
      = CreateResA.created ∧
    ((create_book_A
      [[("ID", BVal.s "x"), ("BookName", BVal.s "A"), ("BookAuthor", BVal.s "B"),
        ("BookEdition", BVal.s ""), ("BookPages", BVal.s ""), ("BookYear", BVal.s "")]]
      [("id", BVal.s "x"), ("title", BVal.s "C"), ("author", BVal.s "D")]).2.countP
        (fun d => decide (dget d "ID" = some (BVal.s "x")))) = 2 := by
  decide

/-- The `BookISBN` field of the document variant B inserts. -/
theorem dget_insertedB_isbn (newId : String) (data : Doc) :
    dget (("_id", BVal.s newId) ::
        requiredFieldsB.map (fun f => (f, dgetD data f (BVal.s "")))) "BookISBN"
      = some (dgetD data "BookISBN" (BVal.s "")) := rfl

/-- The store after variant B's `create_book`: unchanged on every failure
path, extended by exactly the constructed document on success (which
requires the ISBN duplicate check to have failed). -/
theorem create_book_B_store_cases (newId : String) (store : List Doc) (data : Doc) :
    (create_book_B newId store data).2 = store ∨
    ((create_book_B newId store data).2 = store ++ [("_id", BVal.s newId) ::
        requiredFieldsB.map (fun f => (f, dgetD data f (BVal.s "")))] ∧
      store.any (fun d => decide (dget d "BookISBN"
        = some (dgetD data "BookISBN" (BVal.s "")))) = false) := by
  rw [create_book_B]
  by_cases h0 : data = []
  · rw [if_pos h0]
    exact Or.inl rfl
  · rw [if_neg h0]
    cases hfind : requiredFieldsB.find? (fun f => (dget data f).isNone) with
    | some f =>
        exact Or.inl rfl
    | none =>
        by_cases hany : store.any (fun d =>
            decide (dget d "BookISBN" = some (dgetD data "BookISBN" (BVal.s "")))) = true
        · rw [if_pos hany]
          exact Or.inl rfl
        · rw [if_neg hany]
          exact Or.inr ⟨rfl, Bool.not_eq_true _ |>.mp hany⟩

/-- Amended C2: variant A's pre-insert check only blocks exact full-tuple
duplicates (see the counterexample), but variant B's check on the unique
key does enforce its invariant: in any sequential execution, if no two
stored records share a `BookISBN` value, the same holds after any
`create_book` call — and a create whose ISBN already belongs to a stored
record is rejected with 409, the store unchanged. -/
theorem create_isbn_uniqueness_preserved
    (newId : String) (store : List Doc) (data : Doc)
    (hinv : ∀ v, store.countP (fun d => decide (dget d "BookISBN" = some v)) ≤ 1) :
    (∀ v, (create_book_B newId store data).2.countP
        (fun d => decide (dget d "BookISBN" = some v)) ≤ 1) ∧
    ((∀ f ∈ requiredFieldsB, (dget data f).isNone = false) →
      (∃ d ∈ store, dget d "BookISBN" = some (dgetD data "BookISBN" (BVal.s ""))) →
      create_book_B newId store data = (CreateResB.conflict, store)) := by
  constructor
  · intro v
    rcases create_book_B_store_cases newId store data with hsame | ⟨happ, hany⟩
    · rw [hsame]
      exact hinv v
    · rw [happ, List.countP_append]
      by_cases hv : v = dgetD data "BookISBN" (BVal.s "")
      · subst hv
        have hz : store.countP (fun d => decide (dget d "BookISBN"
            = some (dgetD data "BookISBN" (BVal.s "")))) = 0 := by
          rw [List.countP_eq_zero]
          intro d hd
          exact List.any_eq_false.mp hany d hd
        rw [hz, Nat.zero_add]
        exact List.countP_le_length _
      · have hz : List.countP (fun d => decide (dget d "BookISBN" = some v))
            [("_id", BVal.s newId) ::
              requiredFieldsB.map (fun f => (f, dgetD data f (BVal.s "")))] = 0 := by
          rw [List.countP_cons, List.countP_nil]
          rw [decide_eq_false (by
            rw [dget_insertedB_isbn]
            intro hcon
            exact hv (Option.some.inj hcon).symm)]
          rfl
        rw [hz, Nat.add_zero]
        exact hinv v
  · intro hreq hdup
    have h0 : data ≠ [] :=
      ne_nil_of_dget_isSome data "BookName" (hreq "BookName" (by simp [requiredFieldsB]))
    have hfind : requiredFieldsB.find? (fun f => (dget data f).isNone) = none := by
      rw [List.find?_eq_none]
      intro f hf
      rw [hreq f hf]
      exact Bool.false_ne_true
    have hany : store.any (fun d =>
        decide (dget d "BookISBN" = some (dgetD data "BookISBN" (BVal.s "")))) = true := by
      rw [List.any_eq_true]
      obtain ⟨d, hd, hm⟩ := hdup
      exact ⟨d, hd, decide_eq_true hm⟩
    rw [create_book_B, if_neg h0, hfind]
    show (if store.any _ = true then _ else _ : CreateResB × List Doc) = _
    rw [if_pos hany]

/-- Witness for the amended C2 at a one-record store, read off at the
freshly inserted ISBN. -/
theorem create_isbn_uniqueness_preserved_witness :
    ((create_book_B "bb" [[("_id", BVal.s "aa"), ("BookISBN", BVal.s "i1")]]
      [("BookName", BVal.s "n"), ("BookAuthor", BVal.s "a"), ("BookISBN", BVal.s "i2"),
        ("BookPages", BVal.i 1), ("BookYear", BVal.i 2)]).2.countP
        (fun d => decide (dget d "BookISBN" = some (BVal.s "i2")))) ≤ 1 :=
  (create_isbn_uniqueness_preserved "bb"
    [[("_id", BVal.s "aa"), ("BookISBN", BVal.s "i1")]]
    [("BookName", BVal.s "n"), ("BookAuthor", BVal.s "a"), ("BookISBN", BVal.s "i2"),
      ("BookPages", BVal.i 1), ("BookYear", BVal.i 2)]
    (fun _ => List.countP_le_length _)).1 (BVal.s "i2")

/-- Counterexample to C6: in variant A, an update with the non-empty
mapped payload `{"pages": "1"}` and an identifier matching no record
crashes with a `KeyError` (HTTP 500) at the duplicate re-check's
`data["title"]`, instead of failing with 404 `NotFoundError`. -/
theorem update_unknown_identifier_keyerror :
    update_book_A [] "zzz" [("pages", BVal.s "1")] = (UpdateResA.keyError, []) := by
  decide

/-- Reduction of variant A's `update_book` once the body is usable (title
and author present) and the duplicate re-check matches nothing: the call
answers 404 on zero matches, else 200 with the `$set` applied to every
matching record. -/
theorem update_book_A_main (store : List Doc) (bookId : String) (data : Doc)
    (tv av : BVal)
    (ht : dget data "title" = some tv) (ha : dget data "author" = some av)
    (hconf : ∀ d ∈ store, matchesFilter d (updateFilterA bookId data) = false) :
    update_book_A store bookId data =
      if store.countP (fun d => decide (dget d "ID" = some (BVal.s bookId))) = 0
      then (UpdateResA.notFound, store)
      else (UpdateResA.ok, store.map (fun d =>
        if dget d "ID" = some (BVal.s bookId)
        then applySet d (updateFieldsA data) else d)) := by
  have hne : data ≠ [] := by
    intro he
    subst he
    cases ht
  have huf : updateFieldsA data ≠ [] := updateFieldsA_ne_nil data tv ht
  have hany : store.any (fun d => matchesFilter d (updateFilterA bookId data)) = false := by
    rw [List.any_eq_false]
    intro d hd
    rw [hconf d hd]
    exact Bool.false_ne_true
  rw [update_book_A, if_neg hne]
  show (if updateFieldsA data = [] then _ else _ : UpdateResA × List Doc) = _
  rw [if_neg huf, ht, ha, if_neg (by rw [hany]; exact Bool.false_ne_true)]

/-- Amended C6: an update addressed at an identifier matching no stored
record answers 404 `NotFoundError`, provided the payload survives the
earlier stages — in variant A it must also contain the `title` and
`author` keys (otherwise the duplicate re-check raises `KeyError`,
HTTP 500, as the counterexample shows), and in variant B the identifier
must parse as an ObjectId (otherwise HTTP 400) with a non-empty mapped
payload. -/
theorem update_unknown_identifier_notfound
    (storeA : List Doc) (bidA : String) (dataA : Doc) (tv av : BVal)
    (ht : dget dataA "title" = some tv) (ha : dget dataA "author" = some av)
    (hnomatch : ∀ d ∈ storeA, ¬ dget d "ID" = some (BVal.s bidA))
    (storeB : List Doc) (bidB oidB : String) (dataB : Doc)
    (hp : parseObjectId bidB = some oidB) (hne : dataB ≠ [])
    (huf : updateFieldsB dataB ≠ [])
    (hnomatchB : ∀ d ∈ storeB, ¬ dget d "_id" = some (BVal.s oidB)) :
    update_book_A storeA bidA dataA = (UpdateResA.notFound, storeA) ∧
    update_book_B storeB bidB dataB = (UpdateResB.notFound, storeB) := by
  constructor
  · have hconf : ∀ d ∈ storeA, matchesFilter d (updateFilterA bidA dataA) = false := by
      intro d hd
      by_cases hm : matchesFilter d (updateFilterA bidA dataA) = true
      · exact absurd (matchesFilter_head d _ _ _ hm) (hnomatch d hd)
      · exact Bool.not_eq_true _ |>.mp hm
    rw [update_book_A_main storeA bidA dataA tv av ht ha hconf,
      if_pos (List.countP_eq_zero.mpr (fun d hd => fun hc =>
        hnomatch d hd (of_decide_eq_true hc)))]
  · rw [update_book_B, if_neg hne, hp]
    show (if updateFieldsB dataB = [] then _ else _ : UpdateResB × List Doc) = _
    rw [if_neg huf, updateOneB_nomatch oidB _ storeB hnomatchB]
    rfl

/-- Witness for the amended C6: updating identifier `x` over a store
holding only identifier `y` (variant A), and a well-formed but unknown
ObjectId over the empty store (variant B). -/
theorem update_unknown_identifier_notfound_witness :
    update_book_A [[("ID", BVal.s "y")]] "x"
        [("title", BVal.s "T"), ("author", BVal.s "A")]
      = (UpdateResA.notFound, [[("ID", BVal.s "y")]]) ∧
    update_book_B [] "64f1a2b3c4d5e6f708192a3b" [("BookName", BVal.s "n")]
      = (UpdateResB.notFound, []) :=
  update_unknown_identifier_notfound
    [[("ID", BVal.s "y")]] "x" [("title", BVal.s "T"), ("author", BVal.s "A")]
    (BVal.s "T") (BVal.s "A") rfl rfl
    (by decide)
    [] "64f1a2b3c4d5e6f708192a3b" "64f1a2b3c4d5e6f708192a3b" [("BookName", BVal.s "n")]
    (by decide) (by decide) (by decide)
    (by intro d hd; cases hd)

/-- Counterexample to C3: in variant A, a no-op update — the payload sets
`title` and `author` to exactly the stored values of record `x` — is
rejected with 409 by the duplicate re-check instead of succeeding with
HTTP 200. -/
theorem noop_update_rejected_conflict :
    update_book_A
      [[("ID", BVal.s "x"), ("BookName", BVal.s "T"), ("BookAuthor", BVal.s "A"),
        ("BookEdition", BVal.s ""), ("BookPages", BVal.s ""), ("BookYear", BVal.s "")]]
      "x" [("title", BVal.s "T"), ("author", BVal.s "A")]
    = (UpdateResA.conflict,
      [[("ID", BVal.s "x"), ("BookName", BVal.s "T"), ("BookAuthor", BVal.s "A"),
        ("BookEdition", BVal.s ""), ("BookPages", BVal.s ""), ("BookYear", BVal.s "")]]) ∧
    updateFieldsA [("title", BVal.s "T"), ("author", BVal.s "A")]
      = [("BookName", BVal.s "T"), ("BookAuthor", BVal.s "A")] := by
  decide

/-- Amended C3: a matched update whose applied fields all equal the stored
values succeeds with HTTP 200 — variant B reports it distinctly as "no
changes were applied", while variant A (whose `update_many` result is not
consulted for `modified_count`) reports a plain success, and only provided
its duplicate re-check matches no stored record; when the re-check matches
(e.g. the counterexample), variant A answers 409 instead. -/
theorem noop_update_succeeds
    (preB : List Doc) (dB : Doc) (postB : List Doc) (bidB oidB : String) (dataB : Doc)
    (hp : parseObjectId bidB = some oidB) (hne : dataB ≠ [])
    (huf : updateFieldsB dataB ≠ [])
    (hpre : ∀ e ∈ preB, ¬ dget e "_id" = some (BVal.s oidB))
    (hd : dget dB "_id" = some (BVal.s oidB))
    (hnoop : ∀ kv ∈ updateFieldsB dataB, dget dB kv.1 = some kv.2)
    (storeA : List Doc) (bidA : String) (dataA : Doc) (tv av : BVal)
    (ht : dget dataA "title" = some tv) (ha : dget dataA "author" = some av)
    (hconf : ∀ d ∈ storeA, matchesFilter d (updateFilterA bidA dataA) = false)
    (hmatch : ∃ d ∈ storeA, dget d "ID" = some (BVal.s bidA))
    (hnoopA : ∀ d ∈ storeA, dget d "ID" = some (BVal.s bidA) →
      ∀ kv ∈ updateFieldsA dataA, dget d kv.1 = some kv.2) :
    update_book_B (preB ++ dB :: postB) bidB dataB
      = (UpdateResB.okNoChanges, preB ++ dB :: postB) ∧
    update_book_A storeA bidA dataA = (UpdateResA.ok, storeA) := by
  constructor
  · have hself : applySet dB (updateFieldsB dataB) = dB :=
      applySet_self (updateFieldsB dataB) dB hnoop
    rw [update_book_B, if_neg hne, hp]
    show (if updateFieldsB dataB = [] then _ else _ : UpdateResB × List Doc) = _
    rw [if_neg huf, updateOneB_found oidB _ preB dB postB hpre hd, if_pos hself, hself]
    rfl
  · have hcount : storeA.countP
        (fun d => decide (dget d "ID" = some (BVal.s bidA))) ≠ 0 := by
      intro hz
      obtain ⟨d, hdm, hid⟩ := hmatch
      exact List.countP_eq_zero.mp hz d hdm (decide_eq_true hid)
    rw [update_book_A_main storeA bidA dataA tv av ht ha hconf, if_neg hcount]
    have hmap : storeA.map (fun d =>
        if dget d "ID" = some (BVal.s bidA)
        then applySet d (updateFieldsA dataA) else d) = storeA := by
      refine map_self_of_mem _ storeA (fun d hdm => ?_)
      by_cases hid : dget d "ID" = some (BVal.s bidA)
      · rw [if_pos hid]
        exact applySet_self (updateFieldsA dataA) d (hnoopA d hdm hid)
      · rw [if_neg hid]
    rw [hmap]

/-- Witness for the amended C3: a no-op update of a single record in each
variant; variant A's record carries a non-empty edition so the re-check
filter (which defaults `edition` to `""`) does not match it. -/
theorem noop_update_succeeds_witness :
    update_book_B [[("_id", BVal.s "64f1a2b3c4d5e6f708192a3b"), ("BookName", BVal.s "n")]]
        "64f1a2b3c4d5e6f708192a3b" [("BookName", BVal.s "n")]
      = (UpdateResB.okNoChanges,
        [[("_id", BVal.s "64f1a2b3c4d5e6f708192a3b"), ("BookName", BVal.s "n")]]) ∧
    update_book_A
        [[("ID", BVal.s "x"), ("BookName", BVal.s "T"), ("BookAuthor", BVal.s "A"),
          ("BookEdition", BVal.s "E")]]
        "x" [("title", BVal.s "T"), ("author", BVal.s "A")]
      = (UpdateResA.ok,
        [[("ID", BVal.s "x"), ("BookName", BVal.s "T"), ("BookAuthor", BVal.s "A"),
          ("BookEdition", BVal.s "E")]]) :=
  noop_update_succeeds
    [] [("_id", BVal.s "64f1a2b3c4d5e6f708192a3b"), ("BookName", BVal.s "n")] []
    "64f1a2b3c4d5e6f708192a3b" "64f1a2b3c4d5e6f708192a3b" [("BookName", BVal.s "n")]
    (by decide) (by decide) (by decide)
    (by intro e he; cases he) (by decide) (by decide)
    [[("ID", BVal.s "x"), ("BookName", BVal.s "T"), ("BookAuthor", BVal.s "A"),
      ("BookEdition", BVal.s "E")]]
    "x" [("title", BVal.s "T"), ("author", BVal.s "A")] (BVal.s "T") (BVal.s "A")
    rfl rfl (by decide) (by decide) (by decide)

/-- Counterexample to C1: in variant A, the payload `{"pages": "300"}`
contains an allow-listed external field and matches stored record `x`,
yet `update_book` crashes with `KeyError` (HTTP 500) at the duplicate
re-check's `data["title"]` — the allow-listed field is not applied and no
record changes. -/
theorem allowlisted_field_not_applied :
    update_book_A
      [[("ID", BVal.s "x"), ("BookName", BVal.s "T"), ("BookAuthor", BVal.s "A"),
        ("BookEdition", BVal.s "E"), ("BookPages", BVal.s "P"), ("BookYear", BVal.s "Y")]]
      "x" [("pages", BVal.s "300")]
    = (UpdateResA.keyError,
      [[("ID", BVal.s "x"), ("BookName", BVal.s "T"), ("BookAuthor", BVal.s "A"),
        ("BookEdition", BVal.s "E"), ("BookPages", BVal.s "P"), ("BookYear", BVal.s "Y")]]) ∧
    updateFieldsA [("pages", BVal.s "300")] = [("BookPages", BVal.s "300")] := by
  decide

/-- Amended C1: the update payload mapping copies exactly the allow-listed
external keys present in the payload (variant A skips `id`; unknown keys
are never copied), and `$set` applies exactly those fields, leaving every
other field of the matched record and every unmatched record untouched —
in variant B for every usable payload, in variant A provided the payload
also contains `title` and `author` (else `KeyError`, see the
counterexample) and the duplicate re-check matches no stored record. -/
theorem update_applies_exact_allowlist
    (storeA : List Doc) (bidA : String) (dataA : Doc) (tvA avA : BVal)
    (htA : dget dataA "title" = some tvA) (haA : dget dataA "author" = some avA)
    (hconfA : ∀ d ∈ storeA, matchesFilter d (updateFilterA bidA dataA) = false)
    (hmatchA : ∃ d ∈ storeA, dget d "ID" = some (BVal.s bidA))
    (preB : List Doc) (dB : Doc) (postB : List Doc) (bidB oidB : String) (dataB : Doc)
    (hpB : parseObjectId bidB = some oidB) (hneB : dataB ≠ [])
    (hufB : updateFieldsB dataB ≠ [])
    (hpreB : ∀ e ∈ preB, ¬ dget e "_id" = some (BVal.s oidB))
    (hdB : dget dB "_id" = some (BVal.s oidB)) :
    (update_book_A storeA bidA dataA).1 = UpdateResA.ok ∧
    (update_book_A storeA bidA dataA).2 = storeA.map (fun d =>
      if dget d "ID" = some (BVal.s bidA)
      then applySet d (updateFieldsA dataA) else d) ∧
    ((update_book_B (preB ++ dB :: postB) bidB dataB).1 = UpdateResB.okNoChanges ∨
      (update_book_B (preB ++ dB :: postB) bidB dataB).1 = UpdateResB.okUpdated) ∧
    (update_book_B (preB ++ dB :: postB) bidB dataB).2
      = preB ++ applySet dB (updateFieldsB dataB) :: postB ∧
    (∀ (data : Doc) (k : String) (v : BVal), ((k, v) ∈ updateFieldsA data ↔
      ∃ ek, (ek, k) ∈ allowedFieldsA ∧ ek ≠ "id" ∧ dget data ek = some v)) ∧
    (∀ (data : Doc) (k : String) (v : BVal), ((k, v) ∈ updateFieldsB data ↔
      k ∈ requiredFieldsB ∧ dget data k = some v)) ∧
    (∀ (d fields : Doc) (k : String), k ∉ fields.map Prod.fst →
      dget (applySet d fields) k = dget d k) ∧
    (∀ (d fields : Doc) (k : String) (v : BVal),
      (fields.map Prod.fst).Nodup → (k, v) ∈ fields →
      dget (applySet d fields) k = some v) := by
  have hcount : storeA.countP
      (fun d => decide (dget d "ID" = some (BVal.s bidA))) ≠ 0 := by
    intro hz
    obtain ⟨d, hdm, hid⟩ := hmatchA
    exact List.countP_eq_zero.mp hz d hdm (decide_eq_true hid)
  have heqA : update_book_A storeA bidA dataA
      = (UpdateResA.ok, storeA.map (fun d =>
          if dget d "ID" = some (BVal.s bidA)
          then applySet d (updateFieldsA dataA) else d)) := by
    rw [update_book_A_main storeA bidA dataA tvA avA htA haA hconfA, if_neg hcount]
  have heqB : update_book_B (preB ++ dB :: postB) bidB dataB
      = (if applySet dB (updateFieldsB dataB) = dB
          then UpdateResB.okNoChanges else UpdateResB.okUpdated,
        preB ++ applySet dB (updateFieldsB dataB) :: postB) := by
    rw [update_book_B, if_neg hneB, hpB]
    show (if updateFieldsB dataB = [] then _ else _ : UpdateResB × List Doc) = _
    rw [if_neg hufB, updateOneB_found oidB _ preB dB postB hpreB hdB]
    by_cases hid : applySet dB (updateFieldsB dataB) = dB
    · rw [if_pos hid, if_pos hid]
      rfl
    · rw [if_neg hid, if_neg hid]
      rfl
  refine ⟨by rw [heqA], by rw [heqA], ?_, by rw [heqB],
    mem_updateFieldsA, mem_updateFieldsB,
    fun d fields k h => dget_applySet_not_mem fields d k h,
    fun d fields k v hn hm => dget_applySet_mem fields d k v hn hm⟩
  rw [heqB]
  by_cases hid : applySet dB (updateFieldsB dataB) = dB
  · exact Or.inl (by rw [if_pos hid])
  · exact Or.inr (by rw [if_neg hid])

/-- Witness for the amended C1: updating record `x` with fresh title and
author values (variant A) and setting `BookName` through a well-formed
ObjectId (variant B). -/
theorem update_applies_exact_allowlist_witness :
    (update_book_A
      [[("ID", BVal.s "x"), ("BookName", BVal.s "T"), ("BookAuthor", BVal.s "A"),
        ("BookEdition", BVal.s "E")]]
      "x" [("title", BVal.s "T2"), ("author", BVal.s "A2")]).1 = UpdateResA.ok ∧
    (update_book_B [[("_id", BVal.s "64f1a2b3c4d5e6f708192a3b"), ("BookName", BVal.s "n")]]
      "64f1a2b3c4d5e6f708192a3b" [("BookName", BVal.s "m")]).2
      = [applySet [("_id", BVal.s "64f1a2b3c4d5e6f708192a3b"), ("BookName", BVal.s "n")]
          (updateFieldsB [("BookName", BVal.s "m")])] := by
  have h := update_applies_exact_allowlist
    [[("ID", BVal.s "x"), ("BookName", BVal.s "T"), ("BookAuthor", BVal.s "A"),
      ("BookEdition", BVal.s "E")]]
    "x" [("title", BVal.s "T2"), ("author", BVal.s "A2")] (BVal.s "T2") (BVal.s "A2")
    rfl rfl (by decide) (by decide)
    [] [("_id", BVal.s "64f1a2b3c4d5e6f708192a3b"), ("BookName", BVal.s "n")] []
    "64f1a2b3c4d5e6f708192a3b" "64f1a2b3c4d5e6f708192a3b" [("BookName", BVal.s "m")]
    (by decide) (by decide) (by decide)
    (by intro e he; cases he) (by decide)
  exact ⟨h.1, h.2.2.2.1⟩

/-- Counterexample to C8: variant B's listing is built from
`collection.distinct`, which does not drop empty values — over a store
whose only record has an empty `BookAuthor`, `/authors` returns the empty
string, not the set of distinct non-empty values. -/
theorem distinct_includes_empty_string :
    authors_B [[("BookAuthor", BVal.s "")]] = some [BVal.s ""] ∧
    BVal.truthy (BVal.s "") = false := by
  decide

/-- Amended C8: for every store over which the comparison succeeds (all
values of the field are strings, or all are integers — Python `sorted`
raises `TypeError` on a mix), the listings are strictly ascending with no
duplicates and contain exactly the distinct values of the field: the
distinct present-and-truthy (non-empty) values in variant A, and the
distinct present values — empty ones included, see the counterexample —
in variant B. -/
theorem distinct_values_sorted
    (storeA : List Doc) (fieldA : String) (lA : List BVal)
    (hA : distinctTruthyA storeA fieldA = some lA)
    (storeB : List Doc) (fieldB : String) (lB : List BVal)
    (hB : distinctB storeB fieldB = some lB) :
    (List.Pairwise bvalLt lA ∧ lA.Nodup ∧
      ∀ v, (v ∈ lA ↔ (∃ d ∈ storeA, dget d fieldA = some v) ∧ BVal.truthy v = true)) ∧
    (List.Pairwise bvalLt lB ∧ lB.Nodup ∧
      ∀ v, (v ∈ lB ↔ ∃ d ∈ storeB, dget d fieldB = some v)) := by
  constructor
  · rw [distinctTruthyA] at hA
    obtain ⟨hsort, hnod, hmem⟩ :=
      pySorted_spec _ lA hA (List.nodup_dedup _)
    refine ⟨hsort, hnod, fun v => ?_⟩
    rw [hmem v, List.mem_dedup, List.mem_filter, List.mem_filterMap]
  · rw [distinctB] at hB
    obtain ⟨hsort, hnod, hmem⟩ :=
      pySorted_spec _ lB hB (List.nodup_dedup _)
    refine ⟨hsort, hnod, fun v => ?_⟩
    rw [hmem v, List.mem_dedup, List.mem_filterMap]

/-- Witness for the amended C8 over stores with duplicated, unsorted and
(in variant A) falsy year values. -/
theorem distinct_values_sorted_witness :
    List.Pairwise bvalLt [BVal.i 1818, BVal.i 1924] ∧
    List.Nodup [BVal.i 1818, BVal.i 1924] ∧
    ∀ v, (v ∈ [BVal.i 1818, BVal.i 1924] ↔
      (∃ d ∈ [[("BookYear", BVal.i 1924)], [("BookYear", BVal.i 1818)],
          [("BookYear", BVal.i 1818)], [("BookYear", BVal.i 0)]],
        dget d "BookYear" = some v) ∧ BVal.truthy v = true) :=
  (distinct_values_sorted
    [[("BookYear", BVal.i 1924)], [("BookYear", BVal.i 1818)],
      [("BookYear", BVal.i 1818)], [("BookYear", BVal.i 0)]]
    "BookYear" [BVal.i 1818, BVal.i 1924] (by decide)
    [[("BookYear", BVal.i 1924)], [("BookYear", BVal.i 1818)]]
    "BookYear" [BVal.i 1818, BVal.i 1924] (by decide)).1
